import Mathlib

/-!
Verification of the magick-server conversion pipeline (src/main.go).

The core of the program is `convertHandler` (main.go lines 194-404): it
resolves the query parameters `density`, `quality`, `format`, `layout`
into a conversion configuration, reads the request body, drives the
ImageMagick engine page by page (extract, flatten, set quality, set
format, force orientation, serialize) and packs each page as a named
entry of a Zip archive.

The embedding below models the handler as a pure function.  The engine
(imagick) is external; its responses for one request are abstracted as a
record of success flags, page count, page dimensions and per-page output
blobs.  Go stdlib parsers (strconv.ParseFloat / ParseUint) are external
too and are passed in as function parameters.  The handler returns the
HTTP response together with a trace of engine events; handle releases
follow Go defer semantics: a deferred Destroy registered inside the page
loop runs at function return, last-in first-out.
-/

/-- Engine handles created by the handler: the top-level wand `mw`
(doc), the per-page extracted wand `mwi` (pageH i) and the per-page
flattened wand `mwm` (flatH i). -/
inductive Handle where
  | doc : Handle
  | pageH : Nat → Handle
  | flatH : Nat → Handle
deriving DecidableEq

/-- Observable engine events of one request, in program order.
`setResolution x y` records the call mw.SetResolution(density, density);
`call op` records any other engine call by name; `acquire`/`destroy`
record handle creation and the (deferred) Destroy calls. -/
inductive Event where
  | acquire : Handle → Event
  | destroy : Handle → Event
  | setResolution : Rat → Rat → Event
  | call : String → Event
deriving DecidableEq

/-- The response body: either a JSON error object with the given
message, or the raw archive bytes, modelled structurally as the ordered
list of (entry name, entry bytes) pairs written into the Zip. -/
inductive ResponseBody where
  | errorJson : String → ResponseBody
  | archive : List (String × List Nat) → ResponseBody
deriving DecidableEq

/-- An HTTP response: status code and body. -/
structure Response where
  status : Nat
  body : ResponseBody
deriving DecidableEq

/-- The engine's behaviour for one request: which calls succeed, how
many pages NextImage yields, the dimensions of each flattened page, and
the serialized blob of each page (none = GetImageBlob fails). -/
structure EngineBehavior where
  setResolutionOk : Bool
  readImageOk : Bool
  pages : Nat
  pageDims : Nat → Nat × Nat
  setQualityOk : Nat → Bool
  setFormatOk : Nat → Bool
  rotateOk : Nat → Bool
  blob : Nat → Option (List Nat)
  zipCreateOk : Nat → Bool
  zipWriteOk : Nat → Bool
  zipCloseOk : Bool

/-- The recognized query parameters of POST /convert.  `none` means the
parameter is absent from the URL; Go's r.URL.Query().Get returns "" in
that case, which the code treats the same as an explicitly empty
value. -/
structure Query where
  density : Option String
  quality : Option String
  format : Option String
  layout : Option String

/-- Go's Query().Get: absent parameters read as the empty string. -/
def qget (o : Option String) : String := o.getD ""

/-- The validated conversion configuration (main.go lines 196-254):
density (float DPI), quality (uint), format (uppercase key of
formatExtensionMap), layout (one of LANDSCAPE, PORTRAIT, KEEP). -/
structure ConversionConfig where
  density : Rat
  quality : Nat
  format : String
  layout : String
deriving DecidableEq

/-- Go's strings.ToUpper, modelled character-wise: every letter is
mapped to its upper-case form (the formats and layouts being matched
are plain ASCII words). -/
def toUpperStr (s : String) : String := String.mk (s.data.map Char.toUpper)

/-- formatExtensionMap (main.go lines 178-182): supported output
formats and their file extensions. -/
def formatExtensionMap : String → Option String := fun s =>
  if s = "JPEG" then some "jpg"
  else if s = "PNG" then some "png"
  else if s = "TIFF" then some "tiff"
  else none

/-- Density parsing (main.go lines 196-209): default 300.0; a non-empty
value must parse as a float (pf abstracts strconv.ParseFloat). -/
def resolveDensity (pf : String → Option Rat) (v : String) : Except String Rat :=
  if v ≠ "" then
    match pf v with
    | some d => Except.ok d
    | none => Except.error "invalid density"
  else Except.ok 300

/-- Quality parsing (main.go lines 211-224): default 85; a non-empty
value must parse as an unsigned integer (pu abstracts
strconv.ParseUint). -/
def resolveQuality (pu : String → Option Nat) (v : String) : Except String Nat :=
  if v ≠ "" then
    match pu v with
    | some q => Except.ok q
    | none => Except.error "invalid compression quality"
  else Except.ok 85

/-- Format parsing (main.go lines 226-239): default JPEG; a non-empty
value is uppercased and must be a key of formatExtensionMap. -/
def resolveFormat (v : String) : Except String String :=
  if v ≠ "" then
    if (formatExtensionMap (toUpperStr v)).isSome then Except.ok (toUpperStr v)
    else Except.error "invalid output format"
  else Except.ok "JPEG"

/-- Layout parsing (main.go lines 241-254): default KEEP; a non-empty
value is uppercased and must be LANDSCAPE, PORTRAIT or KEEP. -/
def resolveLayout (v : String) : Except String String :=
  if v ≠ "" then
    if toUpperStr v = "LANDSCAPE" ∨ toUpperStr v = "PORTRAIT" ∨ toUpperStr v = "KEEP" then
      Except.ok (toUpperStr v)
    else Except.error "invalid output layout"
  else Except.ok "KEEP"

/-- Parameter resolution in program order (density, quality, format,
layout); the first failing parameter aborts with its message, all such
failures rendering status 400. -/
def resolveParams (pf : String → Option Rat) (pu : String → Option Nat)
    (q : Query) : Except String ConversionConfig := do
  let d ← resolveDensity pf (qget q.density)
  let qu ← resolveQuality pu (qget q.quality)
  let f ← resolveFormat (qget q.format)
  let l ← resolveLayout (qget q.layout)
  pure ⟨d, qu, f, l⟩

/-- Whether the layout switch (main.go lines 326-361) rotates a page of
the given dimensions: LANDSCAPE rotates when width < height, PORTRAIT
when height < width, KEEP never; the comparisons are strict. -/
def pageRotated (layout : String) (width height : Nat) : Bool :=
  if layout = "LANDSCAPE" then decide (width < height)
  else if layout = "PORTRAIT" then decide (height < width)
  else false

/-- The page dimensions after the layout switch: RotateImage by -90
degrees swaps width and height (engine semantics for a quarter-turn);
an unrotated page keeps its dimensions. -/
def pageOutputDims (layout : String) (width height : Nat) : Nat × Nat :=
  if pageRotated layout width height then (height, width) else (width, height)

/-- Go's fmt %04d verb: decimal digits, zero-padded on the left to at
least four characters. -/
def pad4 (n : Nat) : String :=
  let s := toString n
  if s.length < 4 then String.mk (List.replicate (4 - s.length) '0') ++ s else s

/-- Zip entry name for a page (main.go line 373):
fmt.Sprintf with %04d, the zero-based page index and the format's
extension from formatExtensionMap. -/
def entryName (page : Nat) (format : String) : String :=
  pad4 page ++ "." ++ (formatExtensionMap format).getD ""

/-- The mutable state of the handler after the wand is created: events
emitted so far (in order), the stack of deferred Destroy calls (head =
last registered = first to run at return, per Go defer LIFO), and the
Zip entries written so far (in order). -/
structure LoopState where
  events : List Event
  defers : List Handle
  entries : List (String × List Nat)

/-- Emit a non-handle engine event. -/
def emitE (s : LoopState) (e : Event) : LoopState :=
  { s with events := s.events ++ [e] }

/-- Create a handle and register its deferred Destroy (Go defer pushes
onto a LIFO stack that runs at function return). -/
def acqH (s : LoopState) (h : Handle) : LoopState :=
  { s with events := s.events ++ [Event.acquire h], defers := h :: s.defers }

/-- Returning from the handler runs every deferred Destroy, last
registered first. -/
def flushDefers (s : LoopState) : List Event :=
  s.events ++ s.defers.map Event.destroy

/-- Abort the request: render the status and JSON error, then run the
deferred Destroys. -/
def failWith (s : LoopState) (status : Nat) (msg : String) : Response × List Event :=
  (⟨status, ResponseBody.errorJson msg⟩, flushDefers s)

/-- The handler state after a page's GetImage, MergeImageLayers and the
SetImageCompressionQuality call (main.go lines 300-308): two new handles
with deferred Destroys, then the quality call. -/
def sQual (s : LoopState) (i : Nat) : LoopState :=
  emitE (acqH (acqH s (Handle.pageH i)) (Handle.flatH i))
    (Event.call "SetImageCompressionQuality")

/-- The state after the SetImageFormat call (main.go line 317). -/
def sFmt (s : LoopState) (i : Nat) : LoopState :=
  emitE (sQual s i) (Event.call "SetImageFormat")

/-- The state after the GetImageBlob call (main.go line 364). -/
def sBlob (s : LoopState) (i : Nat) : LoopState :=
  emitE (sFmt s i) (Event.call "GetImageBlob")

/-- The state at the end of a successful page iteration: the blob has
been written into the Zip under the page's entry name. -/
def sNext (s : LoopState) (i : Nat) (format : String) (out : List Nat) : LoopState :=
  { sBlob s i with entries := (sBlob s i).entries ++ [(entryName i format, out)] }

/-- The page loop (main.go lines 296-398), processing the given page
indices in order, then closing the Zip archive.  Each page: GetImage
into its own wand, MergeImageLayers (flatten), SetImageCompressionQuality,
SetImageFormat, the layout switch (reading width and height and rotating
by -90 when the layout demands it), GetImageBlob, and a Zip entry named
by entryName.  Any failure renders a 500 JSON error and returns; the two
per-page Destroys are deferred, so they run only at return. -/
def convertPages (cfg : ConversionConfig) (eng : EngineBehavior) :
    List Nat → LoopState → Response × List Event
  | [], s =>
    if eng.zipCloseOk then
      (⟨200, ResponseBody.archive s.entries⟩, flushDefers s)
    else failWith s 500 "failed to close Zip archive"
  | i :: rest, s =>
    if ¬ eng.setQualityOk i then
      failWith (sQual s i) 500 "failed to set compression quality" else
    if ¬ eng.setFormatOk i then
      failWith (sFmt s i) 500 "failed to set output format" else
    if pageRotated cfg.layout (eng.pageDims i).1 (eng.pageDims i).2 ∧ ¬ eng.rotateOk i then
      failWith (sFmt s i) 500 "failed to rotate image" else
    match eng.blob i with
    | none => failWith (sBlob s i) 500 "failed to set output format"
    | some out =>
      if ¬ eng.zipCreateOk i then
        failWith (sBlob s i) 500 "failed to create new Zip archive entry" else
      if ¬ eng.zipWriteOk i then
        failWith (sBlob s i) 500 "failed to write image into Zip archive" else
      convertPages cfg eng rest (sNext s i cfg.format out)

/-- The whole handler (main.go lines 194-404): resolve parameters
(400 on failure, before anything else), read the body (500 on failure,
before the engine is touched), create the wand (deferred Destroy), set
the resolution to (density, density), decode the blob, then run the
page loop over pages 0 .. eng.pages-1.  The second component is the
trace of engine events. -/
def convertHandler (pf : String → Option Rat) (pu : String → Option Nat)
    (q : Query) (body : Option (List Nat)) (eng : EngineBehavior) :
    Response × List Event :=
  match resolveParams pf pu q with
  | Except.error msg => (⟨400, ResponseBody.errorJson msg⟩, [])
  | Except.ok cfg =>
    match body with
    | none => (⟨500, ResponseBody.errorJson "failed to read request body"⟩, [])
    | some _ =>
      let s : LoopState := ⟨[Event.acquire Handle.doc], [Handle.doc], []⟩
      let s := emitE s (Event.setResolution cfg.density cfg.density)
      if ¬ eng.setResolutionOk then failWith s 500 "failed to set density" else
      let s := emitE s (Event.call "ReadImageBlob")
      if ¬ eng.readImageOk then failWith s 500 "failed to read image" else
      convertPages cfg eng (List.range eng.pages) s

/-- The handle acquired by an event, if it is an acquisition. -/
def acquiredOf : Event → Option Handle
  | Event.acquire h => some h
  | _ => none

/-- The handle destroyed by an event, if it is a Destroy. -/
def destroyedOf : Event → Option Handle
  | Event.destroy h => some h
  | _ => none

/-- Invariant of the handler state: the defer stack holds exactly the
acquired handles, most recent first, and no Destroy has run yet
(destruction is always deferred in convertHandler). -/
def StInv (s : LoopState) : Prop :=
  s.defers = (s.events.filterMap acquiredOf).reverse ∧
  s.events.filterMap destroyedOf = []

/-- An engine run in which every call of the pipeline succeeds. -/
def engAllOk (eng : EngineBehavior) : Prop :=
  eng.setResolutionOk = true ∧ eng.readImageOk = true ∧
  (∀ i, eng.setQualityOk i = true) ∧ (∀ i, eng.setFormatOk i = true) ∧
  (∀ i, eng.rotateOk i = true) ∧ (∀ i, (eng.blob i).isSome = true) ∧
  (∀ i, eng.zipCreateOk i = true) ∧ (∀ i, eng.zipWriteOk i = true) ∧
  eng.zipCloseOk = true

/-- Two engine runs that agree structurally: same success pattern for
every call, same page count and dimensions; only the serialized bytes of
a successful GetImageBlob may differ. -/
def structEq (e1 e2 : EngineBehavior) : Prop :=
  e1.setResolutionOk = e2.setResolutionOk ∧ e1.readImageOk = e2.readImageOk ∧
  e1.pages = e2.pages ∧ e1.pageDims = e2.pageDims ∧
  e1.setQualityOk = e2.setQualityOk ∧ e1.setFormatOk = e2.setFormatOk ∧
  e1.rotateOk = e2.rotateOk ∧ (∀ i, (e1.blob i).isSome = (e2.blob i).isSome) ∧
  e1.zipCreateOk = e2.zipCreateOk ∧ e1.zipWriteOk = e2.zipWriteOk ∧
  e1.zipCloseOk = e2.zipCloseOk

/-- The list of archive entry names of a response, when it carries an
archive. -/
def namesOf (r : Response) : Option (List String) :=
  match r.body with
  | ResponseBody.archive es => some (es.map Prod.fst)
  | _ => none

/-- The JSON error messages rendered with status 500 (read, engine and
archive failures), main.go lines 256-398. -/
def serverErrorMessages : List String :=
  ["failed to read request body", "failed to set density", "failed to read image",
   "failed to set compression quality", "failed to set output format",
   "failed to rotate image", "failed to create new Zip archive entry",
   "failed to write image into Zip archive", "failed to close Zip archive"]

/-- Replace an explicitly empty parameter value by an absent one. -/
def blankToNone (o : Option String) : Option String :=
  if o = some "" then none else o

/-- A query with every explicitly empty parameter made absent. -/
def queryBlankToNone (q : Query) : Query :=
  ⟨blankToNone q.density, blankToNone q.quality, blankToNone q.format, blankToNone q.layout⟩

/-- The default configuration: density 300.0, quality 85, JPEG, KEEP. -/
def cfgDefault : ConversionConfig := ⟨300, 85, "JPEG", "KEEP"⟩

/-- A ParseFloat stub that accepts nothing (never consulted when the
density parameter is absent). -/
def pfNone : String → Option Rat := fun _ => none

/-- A ParseUint stub that accepts nothing. -/
def puNone : String → Option Nat := fun _ => none

/-- A ParseFloat stub accepting exactly "150". -/
def pf150 : String → Option Rat := fun v => if v = "150" then some 150 else none

/-- A request with no query parameters. -/
def queryDefault : Query := ⟨none, none, none, none⟩

/-- A concrete engine run: three 600x800 pages, every call succeeds. -/
def engAll3 : EngineBehavior :=
  ⟨true, true, 3, fun _ => (600, 800), fun _ => true, fun _ => true, fun _ => true,
   fun _ => some [], fun _ => true, fun _ => true, true⟩

/-- A concrete engine run whose GetImageBlob fails on every page. -/
def engBlobFail : EngineBehavior :=
  ⟨true, true, 1, fun _ => (600, 800), fun _ => true, fun _ => true, fun _ => true,
   fun _ => none, fun _ => true, fun _ => true, true⟩

/-- A concrete engine run whose SetImageFormat fails on every page. -/
def engFormatFail : EngineBehavior :=
  ⟨true, true, 1, fun _ => (600, 800), fun _ => true, fun _ => false, fun _ => true,
   fun _ => some [], fun _ => true, fun _ => true, true⟩

/-- The engine events of one page iteration up to and including
GetImageBlob. -/
def pageEvents (i : Nat) : List Event :=
  [Event.acquire (Handle.pageH i), Event.acquire (Handle.flatH i),
   Event.call "SetImageCompressionQuality", Event.call "SetImageFormat",
   Event.call "GetImageBlob"]

/-- A page iteration that runs to completion without any failure: the
quality and format calls succeed, the layout switch does not fail (no
rotation attempted, or the rotation succeeds), GetImageBlob yields a
blob, and both Zip operations succeed.  These are exactly the conditions
under which the loop proceeds past the page (main.go lines 298-389). -/
def pageSucceeds (cfg : ConversionConfig) (eng : EngineBehavior) (i : Nat) : Prop :=
  eng.setQualityOk i = true ∧ eng.setFormatOk i = true ∧
  ¬ (pageRotated cfg.layout (eng.pageDims i).1 (eng.pageDims i).2 = true ∧
    ¬ eng.rotateOk i = true) ∧
  (eng.blob i).isSome = true ∧ eng.zipCreateOk i = true ∧ eng.zipWriteOk i = true

lemma qget_blankToNone (o : Option String) : qget (blankToNone o) = qget o := by
  cases o with
  | none => rfl
  | some s => by_cases hs : s = "" <;> simp [blankToNone, qget, hs]

/-- C1, counterexample: a square 500x500 page under layout=LANDSCAPE has
height ≥ width, yet the code does not rotate it (the comparison at
main.go line 332 is strict) and the output dimensions do not satisfy
width > height. -/
theorem c1_counterexample :
    (500 : Nat) ≤ 500 ∧ pageRotated "LANDSCAPE" 500 500 = false ∧
    pageOutputDims "LANDSCAPE" 500 500 = (500, 500) ∧
    ¬ (pageOutputDims "LANDSCAPE" 500 500).2 < (pageOutputDims "LANDSCAPE" 500 500).1 := by
  decide

/-- C1, amended: with layout=LANDSCAPE a page is rotated (by the
negative-angle quarter turn, swapping its dimensions so that width >
height) exactly when its height is strictly greater than its width;
with layout=PORTRAIT exactly when its width is strictly greater than
its height; a page whose width ≥ height (LANDSCAPE) resp. height ≥
width (PORTRAIT) is left unchanged, and layout=KEEP never transforms. -/
theorem c1_amended_rotation (w h : Nat) :
    (w < h → pageRotated "LANDSCAPE" w h = true ∧
      pageOutputDims "LANDSCAPE" w h = (h, w) ∧
      (pageOutputDims "LANDSCAPE" w h).2 < (pageOutputDims "LANDSCAPE" w h).1) ∧
    (h ≤ w → pageRotated "LANDSCAPE" w h = false ∧
      pageOutputDims "LANDSCAPE" w h = (w, h)) ∧
    (h < w → pageRotated "PORTRAIT" w h = true ∧
      pageOutputDims "PORTRAIT" w h = (h, w) ∧
      (pageOutputDims "PORTRAIT" w h).1 < (pageOutputDims "PORTRAIT" w h).2) ∧
    (w ≤ h → pageRotated "PORTRAIT" w h = false ∧
      pageOutputDims "PORTRAIT" w h = (w, h)) ∧
    pageRotated "KEEP" w h = false ∧ pageOutputDims "KEEP" w h = (w, h) := by
  refine ⟨fun hw => ?_, fun hw => ?_, fun hw => ?_, fun hw => ?_, ?_, ?_⟩
  · have h1 : pageRotated "LANDSCAPE" w h = true := by simp [pageRotated, hw]
    exact ⟨h1, by simp [pageOutputDims, h1], by simp [pageOutputDims, h1]; exact hw⟩
  · have h1 : pageRotated "LANDSCAPE" w h = false := by simp [pageRotated]; omega
    exact ⟨h1, by simp [pageOutputDims, h1]⟩
  · have h1 : pageRotated "PORTRAIT" w h = true := by simp [pageRotated, hw]
    exact ⟨h1, by simp [pageOutputDims, h1], by simp [pageOutputDims, h1]; exact hw⟩
  · have h1 : pageRotated "PORTRAIT" w h = false := by simp [pageRotated]; omega
    exact ⟨h1, by simp [pageOutputDims, h1]⟩
  · simp [pageRotated]
  · simp [pageOutputDims, pageRotated]

/-- C1, witness: a 600x800 (tall) page is rotated to 800x600 under
LANDSCAPE, and an 800x600 (wide) page is rotated to 600x800 under
PORTRAIT. -/
theorem c1_amended_rotation_witness :
    pageOutputDims "LANDSCAPE" 600 800 = (800, 600) ∧
    pageOutputDims "PORTRAIT" 800 600 = (600, 800) :=
  ⟨((c1_amended_rotation 600 800).1 (by decide)).2.1,
   ((c1_amended_rotation 800 600).2.2.1 (by decide)).2.1⟩

/-- C2: a perfectly square page is never rotated under either the
LANDSCAPE or the PORTRAIT policy (the comparisons at main.go lines 332
and 348 are strict), and its dimensions are unchanged. -/
theorem c2_square_page_never_rotated (w : Nat) :
    pageRotated "LANDSCAPE" w w = false ∧ pageRotated "PORTRAIT" w w = false ∧
    pageOutputDims "LANDSCAPE" w w = (w, w) ∧ pageOutputDims "PORTRAIT" w w = (w, w) := by
  have h1 : pageRotated "LANDSCAPE" w w = false := by simp [pageRotated]
  have h2 : pageRotated "PORTRAIT" w w = false := by simp [pageRotated]
  exact ⟨h1, h2, by simp [pageOutputDims, h1], by simp [pageOutputDims, h2]⟩

/-- C9: a recognized query parameter supplied with an empty string value
is treated exactly like an absent parameter (the code gates every
parameter on v != ""), and a request whose four parameters are all
empty resolves to the default configuration density 300, quality 85,
JPEG, KEEP with no validation error. -/
theorem c9_empty_parameter_like_absent (pf : String → Option Rat)
    (pu : String → Option Nat) (q : Query) :
    resolveParams pf pu (queryBlankToNone q) = resolveParams pf pu q ∧
    resolveParams pf pu ⟨some "", some "", some "", some ""⟩ =
      Except.ok ⟨300, 85, "JPEG", "KEEP"⟩ := by
  constructor
  · unfold resolveParams queryBlankToNone
    simp only [qget_blankToNone]
  · rfl

lemma resolveParams_ok_iff (pf : String → Option Rat) (pu : String → Option Nat)
    (q : Query) (cfg : ConversionConfig) :
    resolveParams pf pu q = Except.ok cfg ↔
      resolveDensity pf (qget q.density) = Except.ok cfg.density ∧
      resolveQuality pu (qget q.quality) = Except.ok cfg.quality ∧
      resolveFormat (qget q.format) = Except.ok cfg.format ∧
      resolveLayout (qget q.layout) = Except.ok cfg.layout := by
  obtain ⟨cd, cq, cf, cl⟩ := cfg
  unfold resolveParams
  cases hd : resolveDensity pf (qget q.density) <;>
    cases hq : resolveQuality pu (qget q.quality) <;>
      cases hf : resolveFormat (qget q.format) <;>
        cases hl : resolveLayout (qget q.layout) <;>
          simp [bind, Except.bind, pure, Except.pure, ConversionConfig.mk.injEq, and_assoc]

lemma resolveParams_error_density (pf : String → Option Rat) (pu : String → Option Nat)
    (q : Query) (m : String)
    (hd : resolveDensity pf (qget q.density) = Except.error m) :
    resolveParams pf pu q = Except.error m := by
  unfold resolveParams
  simp [bind, Except.bind, hd]

lemma resolveParams_error_format (pf : String → Option Rat) (pu : String → Option Nat)
    (q : Query) (d : Rat) (qu : Nat) (m : String)
    (hd : resolveDensity pf (qget q.density) = Except.ok d)
    (hq : resolveQuality pu (qget q.quality) = Except.ok qu)
    (hf : resolveFormat (qget q.format) = Except.error m) :
    resolveParams pf pu q = Except.error m := by
  unfold resolveParams
  simp [bind, Except.bind, hd, hq, hf]

lemma convertHandler_resolve_error (pf : String → Option Rat) (pu : String → Option Nat)
    (q : Query) (body : Option (List Nat)) (eng : EngineBehavior) (m : String)
    (h : resolveParams pf pu q = Except.error m) :
    convertHandler pf pu q body eng = (⟨400, ResponseBody.errorJson m⟩, []) := by
  unfold convertHandler
  rw [h]

lemma failWith_snd (s : LoopState) (c : Nat) (m : String) :
    (failWith s c m).2 = flushDefers s := rfl

lemma sQual_events (s : LoopState) (i : Nat) :
    (sQual s i).events = s.events ++ (pageEvents i).take 3 := by
  simp [sQual, acqH, emitE, pageEvents]

lemma sFmt_events (s : LoopState) (i : Nat) :
    (sFmt s i).events = s.events ++ (pageEvents i).take 4 := by
  simp [sFmt, sQual, acqH, emitE, pageEvents]

lemma sBlob_events (s : LoopState) (i : Nat) :
    (sBlob s i).events = s.events ++ pageEvents i := by
  simp [sBlob, sFmt, sQual, acqH, emitE, pageEvents]

lemma sNext_events (s : LoopState) (i : Nat) (f : String) (out : List Nat) :
    (sNext s i f out).events = s.events ++ pageEvents i := by
  simp [sNext, sBlob_events]

lemma sQual_defers (s : LoopState) (i : Nat) :
    (sQual s i).defers = Handle.flatH i :: Handle.pageH i :: s.defers := by
  simp [sQual, acqH, emitE]

lemma sFmt_defers (s : LoopState) (i : Nat) :
    (sFmt s i).defers = Handle.flatH i :: Handle.pageH i :: s.defers := by
  simp [sFmt, sQual, acqH, emitE]

lemma sBlob_defers (s : LoopState) (i : Nat) :
    (sBlob s i).defers = Handle.flatH i :: Handle.pageH i :: s.defers := by
  simp [sBlob, sFmt, sQual, acqH, emitE]

lemma sNext_defers (s : LoopState) (i : Nat) (f : String) (out : List Nat) :
    (sNext s i f out).defers = Handle.flatH i :: Handle.pageH i :: s.defers := by
  simp [sNext, sBlob_defers]

lemma sQual_entries (s : LoopState) (i : Nat) : (sQual s i).entries = s.entries := by
  simp [sQual, acqH, emitE]

lemma sFmt_entries (s : LoopState) (i : Nat) : (sFmt s i).entries = s.entries := by
  simp [sFmt, sQual, acqH, emitE]

lemma sBlob_entries (s : LoopState) (i : Nat) : (sBlob s i).entries = s.entries := by
  simp [sBlob, sFmt, sQual, acqH, emitE]

lemma sNext_entries (s : LoopState) (i : Nat) (f : String) (out : List Nat) :
    (sNext s i f out).entries = s.entries ++ [(entryName i f, out)] := by
  simp [sNext, sBlob_entries]

lemma flushDefers_extends (s s' : LoopState) (t : List Event)
    (h : s'.events = s.events ++ t) :
    ∃ u, flushDefers s' = s.events ++ u :=
  ⟨t ++ s'.defers.map Event.destroy, by simp [flushDefers, h, List.append_assoc]⟩

lemma convertPages_events_extends (cfg : ConversionConfig) (eng : EngineBehavior)
    (l : List Nat) : ∀ s : LoopState, ∃ t, (convertPages cfg eng l s).2 = s.events ++ t := by
  induction l with
  | nil =>
    intro s
    by_cases hc : eng.zipCloseOk <;>
      exact ⟨s.defers.map Event.destroy, by simp [convertPages, hc, flushDefers, failWith]⟩
  | cons i rest ih =>
    intro s
    simp only [convertPages]
    by_cases h1 : eng.setQualityOk i = true
    case neg =>
      rw [if_pos h1, failWith_snd]
      exact flushDefers_extends s (sQual s i) _ (sQual_events s i)
    rw [if_neg (not_not_intro h1)]
    by_cases h2 : eng.setFormatOk i = true
    case neg =>
      rw [if_pos h2, failWith_snd]
      exact flushDefers_extends s (sFmt s i) _ (sFmt_events s i)
    rw [if_neg (not_not_intro h2)]
    by_cases h3 : pageRotated cfg.layout (eng.pageDims i).1 (eng.pageDims i).2 = true ∧
        ¬ eng.rotateOk i = true
    case pos =>
      rw [if_pos h3, failWith_snd]
      exact flushDefers_extends s (sFmt s i) _ (sFmt_events s i)
    rw [if_neg h3]
    cases h4 : eng.blob i with
    | none =>
      dsimp only
      rw [failWith_snd]
      exact flushDefers_extends s (sBlob s i) _ (sBlob_events s i)
    | some out =>
      dsimp only
      by_cases h5 : eng.zipCreateOk i = true
      case neg =>
        rw [if_pos h5, failWith_snd]
        exact flushDefers_extends s (sBlob s i) _ (sBlob_events s i)
      rw [if_neg (not_not_intro h5)]
      by_cases h6 : eng.zipWriteOk i = true
      case neg =>
        rw [if_pos h6, failWith_snd]
        exact flushDefers_extends s (sBlob s i) _ (sBlob_events s i)
      rw [if_neg (not_not_intro h6)]
      obtain ⟨t, ht⟩ := ih (sNext s i cfg.format out)
      rw [ht, sNext_events]
      exact ⟨pageEvents i ++ t, by rw [List.append_assoc]⟩

/-- C5: a format value whose upper-casing is JPEG, PNG or TIFF resolves
to that format with canonical extension jpg, png or tiff respectively;
any other non-empty format value makes the request fail with status 400
and JSON error "invalid output format" with an empty engine trace (the
engine is never invoked), provided density and quality validated. -/
theorem c5_format_parameter :
    (∀ v : String, toUpperStr v = "JPEG" →
      resolveFormat v = Except.ok "JPEG" ∧ formatExtensionMap "JPEG" = some "jpg") ∧
    (∀ v : String, toUpperStr v = "PNG" →
      resolveFormat v = Except.ok "PNG" ∧ formatExtensionMap "PNG" = some "png") ∧
    (∀ v : String, toUpperStr v = "TIFF" →
      resolveFormat v = Except.ok "TIFF" ∧ formatExtensionMap "TIFF" = some "tiff") ∧
    (∀ (pf : String → Option Rat) (pu : String → Option Nat) (q : Query)
      (body : Option (List Nat)) (eng : EngineBehavior) (v : String) (d : Rat) (qu : Nat),
      resolveDensity pf (qget q.density) = Except.ok d →
      resolveQuality pu (qget q.quality) = Except.ok qu →
      q.format = some v → v ≠ "" → formatExtensionMap (toUpperStr v) = none →
      convertHandler pf pu q body eng =
        (⟨400, ResponseBody.errorJson "invalid output format"⟩, [])) := by
  refine ⟨fun v hv => ?_, fun v hv => ?_, fun v hv => ?_,
    fun pf pu q body eng v d qu hd hq hfmt hne hmap => ?_⟩
  · have hne : v ≠ "" := by intro he; subst he; exact absurd hv (by decide)
    exact ⟨by simp [resolveFormat, hne, hv, formatExtensionMap], by decide⟩
  · have hne : v ≠ "" := by intro he; subst he; exact absurd hv (by decide)
    exact ⟨by simp [resolveFormat, hne, hv, formatExtensionMap], by decide⟩
  · have hne : v ≠ "" := by intro he; subst he; exact absurd hv (by decide)
    exact ⟨by simp [resolveFormat, hne, hv, formatExtensionMap], by decide⟩
  · have hrf : resolveFormat (qget q.format) = Except.error "invalid output format" := by
      rw [hfmt]
      simp [qget, resolveFormat, hne, hmap]
    exact convertHandler_resolve_error _ _ _ _ _ _
      (resolveParams_error_format pf pu q d qu _ hd hq hrf)

/-- C5, witness: "jpeg" resolves to JPEG/jpg, and format=bogus yields a
400 "invalid output format" with no engine interaction. -/
theorem c5_format_parameter_witness :
    resolveFormat "jpeg" = Except.ok "JPEG" ∧
    convertHandler pfNone puNone ⟨none, none, some "bogus", none⟩ (some []) engAll3 =
      (⟨400, ResponseBody.errorJson "invalid output format"⟩, []) :=
  ⟨(c5_format_parameter.1 "jpeg" (by decide)).1,
   c5_format_parameter.2.2.2 pfNone puNone ⟨none, none, some "bogus", none⟩ (some [])
     engAll3 "bogus" 300 85 rfl rfl rfl (by decide) (by decide)⟩

/-- C7: a non-empty density value that ParseFloat accepts becomes the
resolved configuration's density, which the pipeline passes twice (as
horizontal and vertical resolution) to SetResolution; a non-empty value
that ParseFloat rejects makes the request fail with status 400 and JSON
error "invalid density" with an empty engine trace (no conversion work
is performed). -/
theorem c7_density_parameter :
    (∀ (pf : String → Option Rat) (pu : String → Option Nat) (q : Query)
      (v : String) (d : Rat) (cfg : ConversionConfig),
      q.density = some v → v ≠ "" → pf v = some d →
      resolveParams pf pu q = Except.ok cfg → cfg.density = d) ∧
    (∀ (pf : String → Option Rat) (pu : String → Option Nat) (q : Query)
      (body : Option (List Nat)) (eng : EngineBehavior) (v : String),
      q.density = some v → v ≠ "" → pf v = none →
      convertHandler pf pu q body eng =
        (⟨400, ResponseBody.errorJson "invalid density"⟩, [])) ∧
    (∀ (pf : String → Option Rat) (pu : String → Option Nat) (q : Query)
      (bs : List Nat) (eng : EngineBehavior) (cfg : ConversionConfig),
      resolveParams pf pu q = Except.ok cfg →
      Event.setResolution cfg.density cfg.density ∈
        (convertHandler pf pu q (some bs) eng).2) := by
  refine ⟨fun pf pu q v d cfg hv hne hpf hcfg => ?_,
    fun pf pu q body eng v hv hne hpf => ?_,
    fun pf pu q bs eng cfg hcfg => ?_⟩
  · have hd := ((resolveParams_ok_iff pf pu q cfg).1 hcfg).1
    rw [hv] at hd
    simp [qget, resolveDensity, hne, hpf] at hd
    exact hd.symm
  · have hrd : resolveDensity pf (qget q.density) = Except.error "invalid density" := by
      rw [hv]
      simp [qget, resolveDensity, hne, hpf]
    exact convertHandler_resolve_error _ _ _ _ _ _
      (resolveParams_error_density pf pu q _ hrd)
  · unfold convertHandler
    rw [hcfg]
    dsimp only
    by_cases h1 : eng.setResolutionOk = true
    case neg =>
      rw [if_pos h1, failWith_snd]
      simp [flushDefers, emitE]
    rw [if_neg (not_not_intro h1)]
    by_cases h2 : eng.readImageOk = true
    case neg =>
      rw [if_pos h2, failWith_snd]
      simp [flushDefers, emitE]
    rw [if_neg (not_not_intro h2)]
    obtain ⟨t, ht⟩ := convertPages_events_extends cfg eng (List.range eng.pages)
      (emitE (emitE ⟨[Event.acquire Handle.doc], [Handle.doc], []⟩
        (Event.setResolution cfg.density cfg.density)) (Event.call "ReadImageBlob"))
    rw [ht]
    simp [emitE]

/-- C7, witness: density=150 resolves to density 150 and reaches
SetResolution(150, 150); density=x fails with 400 "invalid density" and
an empty trace. -/
theorem c7_density_parameter_witness :
    (⟨150, 85, "JPEG", "KEEP"⟩ : ConversionConfig).density = 150 ∧
    convertHandler pfNone puNone ⟨some "x", none, none, none⟩ (some []) engAll3 =
      (⟨400, ResponseBody.errorJson "invalid density"⟩, []) ∧
    Event.setResolution 150 150 ∈
      (convertHandler pf150 puNone ⟨some "150", none, none, none⟩ (some []) engAll3).2 :=
  ⟨c7_density_parameter.1 pf150 puNone ⟨some "150", none, none, none⟩ "150" 150
      ⟨150, 85, "JPEG", "KEEP"⟩ rfl (by decide) rfl rfl,
   c7_density_parameter.2.1 pfNone puNone ⟨some "x", none, none, none⟩ (some []) engAll3
      "x" rfl (by decide) rfl,
   c7_density_parameter.2.2 pf150 puNone ⟨some "150", none, none, none⟩ [] engAll3
      ⟨150, 85, "JPEG", "KEEP"⟩ rfl⟩

lemma filterMap_destroyedOf_map_destroy (hs : List Handle) :
    hs.filterMap (destroyedOf ∘ Event.destroy) = hs := by
  induction hs with
  | nil => rfl
  | cons h t ih => simp [Function.comp, destroyedOf, ih]

lemma filterMap_acquiredOf_map_destroy (hs : List Handle) :
    hs.filterMap (acquiredOf ∘ Event.destroy) = [] := by
  induction hs with
  | nil => rfl
  | cons h t ih => simp [Function.comp, acquiredOf, ih]

lemma flushDefers_balanced (s : LoopState) (hInv : StInv s) :
    (flushDefers s).filterMap destroyedOf =
      ((flushDefers s).filterMap acquiredOf).reverse := by
  obtain ⟨hd, hn⟩ := hInv
  simp [flushDefers, List.filterMap_append, hn, hd,
    filterMap_destroyedOf_map_destroy, filterMap_acquiredOf_map_destroy]

lemma StInv_emitE (s : LoopState) (e : Event) (ha : acquiredOf e = none)
    (hd : destroyedOf e = none) (h : StInv s) : StInv (emitE s e) := by
  obtain ⟨h1, h2⟩ := h
  constructor
  · simp [emitE, List.filterMap_append, List.filterMap_cons, ha, h1]
  · simp [emitE, List.filterMap_append, List.filterMap_cons, hd, h2]

lemma StInv_acqH (s : LoopState) (h : Handle) (hs : StInv s) : StInv (acqH s h) := by
  obtain ⟨h1, h2⟩ := hs
  constructor
  · simp [acqH, List.filterMap_append, List.filterMap_cons, acquiredOf, h1]
  · simp [acqH, List.filterMap_append, List.filterMap_cons, destroyedOf, h2]

lemma StInv_sQual (s : LoopState) (i : Nat) (h : StInv s) : StInv (sQual s i) :=
  StInv_emitE _ _ rfl rfl (StInv_acqH _ _ (StInv_acqH _ _ h))

lemma StInv_sFmt (s : LoopState) (i : Nat) (h : StInv s) : StInv (sFmt s i) :=
  StInv_emitE _ _ rfl rfl (StInv_sQual s i h)

lemma StInv_sBlob (s : LoopState) (i : Nat) (h : StInv s) : StInv (sBlob s i) :=
  StInv_emitE _ _ rfl rfl (StInv_sFmt s i h)

lemma StInv_sNext (s : LoopState) (i : Nat) (f : String) (out : List Nat)
    (h : StInv s) : StInv (sNext s i f out) :=
  StInv_sBlob s i h

lemma convertPages_balanced (cfg : ConversionConfig) (eng : EngineBehavior)
    (l : List Nat) : ∀ s : LoopState, StInv s →
      (convertPages cfg eng l s).2.filterMap destroyedOf =
        ((convertPages cfg eng l s).2.filterMap acquiredOf).reverse := by
  induction l with
  | nil =>
    intro s hs
    by_cases hc : eng.zipCloseOk <;>
      simpa [convertPages, hc, failWith] using flushDefers_balanced s hs
  | cons i rest ih =>
    intro s hs
    simp only [convertPages]
    by_cases h1 : eng.setQualityOk i = true
    case neg =>
      rw [if_pos h1, failWith_snd]
      exact flushDefers_balanced _ (StInv_sQual s i hs)
    rw [if_neg (not_not_intro h1)]
    by_cases h2 : eng.setFormatOk i = true
    case neg =>
      rw [if_pos h2, failWith_snd]
      exact flushDefers_balanced _ (StInv_sFmt s i hs)
    rw [if_neg (not_not_intro h2)]
    by_cases h3 : pageRotated cfg.layout (eng.pageDims i).1 (eng.pageDims i).2 = true ∧
        ¬ eng.rotateOk i = true
    case pos =>
      rw [if_pos h3, failWith_snd]
      exact flushDefers_balanced _ (StInv_sFmt s i hs)
    rw [if_neg h3]
    cases h4 : eng.blob i with
    | none =>
      dsimp only
      rw [failWith_snd]
      exact flushDefers_balanced _ (StInv_sBlob s i hs)
    | some out =>
      dsimp only
      by_cases h5 : eng.zipCreateOk i = true
      case neg =>
        rw [if_pos h5, failWith_snd]
        exact flushDefers_balanced _ (StInv_sBlob s i hs)
      rw [if_neg (not_not_intro h5)]
      by_cases h6 : eng.zipWriteOk i = true
      case neg =>
        rw [if_pos h6, failWith_snd]
        exact flushDefers_balanced _ (StInv_sBlob s i hs)
      rw [if_neg (not_not_intro h6)]
      exact ih (sNext s i cfg.format out) (StInv_sNext s i cfg.format out hs)

/-- C3, counterexample: in a successful two(+)-page conversion, the
sub-handles of page 0 are NOT released before page 1 is processed: the
extracted wand of page 1 is acquired strictly before the Destroy of
page 0's extracted wand appears in the trace, because the Go defers
registered inside the loop only run when the handler returns. -/
theorem c3_counterexample :
    Event.destroy (Handle.pageH 0) ∈
      (convertHandler pfNone puNone queryDefault (some []) engAll3).2 ∧
    Event.acquire (Handle.pageH 1) ∈
      (convertHandler pfNone puNone queryDefault (some []) engAll3).2 ∧
    (convertHandler pfNone puNone queryDefault (some []) engAll3).2.indexOf
        (Event.acquire (Handle.pageH 1)) <
      (convertHandler pfNone puNone queryDefault (some []) engAll3).2.indexOf
        (Event.destroy (Handle.pageH 0)) := by
  decide

/-- C3, amended: every engine handle acquired during the request (the
document wand and both per-page sub-handles of every page) is released
by the time the handler returns, whatever the success or failure of any
stage — the Destroy calls are exactly the acquisitions in reverse
(LIFO) order — but the releases are deferred to the return of the whole
request, accumulated across the document, not performed at the end of
each page's iteration. -/
theorem c3_amended_release_at_return (pf : String → Option Rat)
    (pu : String → Option Nat) (q : Query) (body : Option (List Nat))
    (eng : EngineBehavior) :
    (convertHandler pf pu q body eng).2.filterMap destroyedOf =
      ((convertHandler pf pu q body eng).2.filterMap acquiredOf).reverse := by
  unfold convertHandler
  cases hr : resolveParams pf pu q with
  | error m => rfl
  | ok cfg =>
    cases body with
    | none => rfl
    | some bs =>
      dsimp only
      have hs0 : StInv (⟨[Event.acquire Handle.doc], [Handle.doc], []⟩ : LoopState) :=
        ⟨rfl, rfl⟩
      have hs1 := StInv_emitE _ (Event.setResolution cfg.density cfg.density) rfl rfl hs0
      have hs2 := StInv_emitE _ (Event.call "ReadImageBlob") rfl rfl hs1
      by_cases h1 : eng.setResolutionOk = true
      case neg =>
        rw [if_pos h1, failWith_snd]
        exact flushDefers_balanced _ hs1
      rw [if_neg (not_not_intro h1)]
      by_cases h2 : eng.readImageOk = true
      case neg =>
        rw [if_pos h2, failWith_snd]
        exact flushDefers_balanced _ hs2
      rw [if_neg (not_not_intro h2)]
      exact convertPages_balanced cfg eng (List.range eng.pages) _ hs2

lemma failWith_fst (s : LoopState) (c : Nat) (m : String) :
    (failWith s c m).1 = ⟨c, ResponseBody.errorJson m⟩ := rfl

lemma convertPages_status (cfg : ConversionConfig) (eng : EngineBehavior)
    (l : List Nat) : ∀ s : LoopState,
      (∃ es, (convertPages cfg eng l s).1 = ⟨200, ResponseBody.archive es⟩) ∨
      (∃ m, (convertPages cfg eng l s).1 = ⟨500, ResponseBody.errorJson m⟩ ∧
        m ∈ serverErrorMessages) := by
  induction l with
  | nil =>
    intro s
    by_cases hc : eng.zipCloseOk = true
    · exact Or.inl ⟨s.entries, by simp [convertPages, hc]⟩
    · refine Or.inr ⟨"failed to close Zip archive", ?_, by decide⟩
      simp [convertPages, hc, failWith_fst]
  | cons i rest ih =>
    intro s
    simp only [convertPages]
    by_cases h1 : eng.setQualityOk i = true
    case neg =>
      rw [if_pos h1, failWith_fst]
      exact Or.inr ⟨_, rfl, by decide⟩
    rw [if_neg (not_not_intro h1)]
    by_cases h2 : eng.setFormatOk i = true
    case neg =>
      rw [if_pos h2, failWith_fst]
      exact Or.inr ⟨_, rfl, by decide⟩
    rw [if_neg (not_not_intro h2)]
    by_cases h3 : pageRotated cfg.layout (eng.pageDims i).1 (eng.pageDims i).2 = true ∧
        ¬ eng.rotateOk i = true
    case pos =>
      rw [if_pos h3, failWith_fst]
      exact Or.inr ⟨_, rfl, by decide⟩
    rw [if_neg h3]
    cases h4 : eng.blob i with
    | none =>
      dsimp only
      rw [failWith_fst]
      exact Or.inr ⟨_, rfl, by decide⟩
    | some out =>
      dsimp only
      by_cases h5 : eng.zipCreateOk i = true
      case neg =>
        rw [if_pos h5, failWith_fst]
        exact Or.inr ⟨_, rfl, by decide⟩
      rw [if_neg (not_not_intro h5)]
      by_cases h6 : eng.zipWriteOk i = true
      case neg =>
        rw [if_pos h6, failWith_fst]
        exact Or.inr ⟨_, rfl, by decide⟩
      rw [if_neg (not_not_intro h6)]
      exact ih (sNext s i cfg.format out)

/-- C6: every request either succeeds with status 200 and a complete
archive body, or terminates with a JSON error object and no archive in
the body: status 400 carrying exactly the parameter-validation error
message, or status 500 carrying one of the read/engine/archive failure
messages. -/
theorem c6_failure_semantics (pf : String → Option Rat) (pu : String → Option Nat)
    (q : Query) (body : Option (List Nat)) (eng : EngineBehavior) :
    (∃ es, (convertHandler pf pu q body eng).1 = ⟨200, ResponseBody.archive es⟩) ∨
    (∃ m, (convertHandler pf pu q body eng).1 = ⟨400, ResponseBody.errorJson m⟩ ∧
      resolveParams pf pu q = Except.error m) ∨
    (∃ m, (convertHandler pf pu q body eng).1 = ⟨500, ResponseBody.errorJson m⟩ ∧
      m ∈ serverErrorMessages) := by
  unfold convertHandler
  cases hr : resolveParams pf pu q with
  | error m => exact Or.inr (Or.inl ⟨m, rfl, rfl⟩)
  | ok cfg =>
    cases body with
    | none => exact Or.inr (Or.inr ⟨"failed to read request body", rfl, by decide⟩)
    | some bs =>
      dsimp only
      by_cases h1 : eng.setResolutionOk = true
      case neg =>
        rw [if_pos h1, failWith_fst]
        exact Or.inr (Or.inr ⟨_, rfl, by decide⟩)
      rw [if_neg (not_not_intro h1)]
      by_cases h2 : eng.readImageOk = true
      case neg =>
        rw [if_pos h2, failWith_fst]
        exact Or.inr (Or.inr ⟨_, rfl, by decide⟩)
      rw [if_neg (not_not_intro h2)]
      rcases convertPages_status cfg eng (List.range eng.pages) _ with ⟨es, hes⟩ | ⟨m, hm, hmem⟩
      · exact Or.inl ⟨es, hes⟩
      · exact Or.inr (Or.inr ⟨m, hm, hmem⟩)

lemma convertPages_allOk (cfg : ConversionConfig) (eng : EngineBehavior)
    (hall : engAllOk eng) (l : List Nat) :
    ∀ s : LoopState, ∃ es,
      (convertPages cfg eng l s).1 = ⟨200, ResponseBody.archive es⟩ ∧
      es = s.entries ++ l.map (fun i => (entryName i cfg.format, (eng.blob i).getD [])) := by
  obtain ⟨hres, hread, hq, hf, hrot, hblob, hcr, hwr, hc⟩ := hall
  induction l with
  | nil =>
    intro s
    exact ⟨s.entries, by simp [convertPages, hc], by simp⟩
  | cons i rest ih =>
    intro s
    simp only [convertPages]
    rw [if_neg (not_not_intro (hq i)), if_neg (not_not_intro (hf i))]
    have h3 : ¬ (pageRotated cfg.layout (eng.pageDims i).1 (eng.pageDims i).2 = true ∧
        ¬ eng.rotateOk i = true) := by simp [hrot i]
    rw [if_neg h3]
    obtain ⟨out, hout⟩ := Option.isSome_iff_exists.mp (hblob i)
    rw [hout]
    dsimp only
    rw [if_neg (not_not_intro (hcr i)), if_neg (not_not_intro (hwr i))]
    obtain ⟨es, hes, hval⟩ := ih (sNext s i cfg.format out)
    refine ⟨es, hes, ?_⟩
    rw [hval, sNext_entries]
    simp [hout, List.append_assoc]

/-- C4: a successful conversion of an input the engine decodes to
eng.pages pages produces an archive with exactly eng.pages entries,
named entryName 0 .. entryName (pages-1) with the configured format's
canonical extension, appended in page order. -/
theorem c4_archive_structure (pf : String → Option Rat) (pu : String → Option Nat)
    (q : Query) (eng : EngineBehavior) (cfg : ConversionConfig) (bs : List Nat)
    (hr : resolveParams pf pu q = Except.ok cfg) (hall : engAllOk eng) :
    ∃ es, (convertHandler pf pu q (some bs) eng).1 = ⟨200, ResponseBody.archive es⟩ ∧
      es.map Prod.fst = (List.range eng.pages).map (fun i => entryName i cfg.format) ∧
      es.length = eng.pages := by
  unfold convertHandler
  rw [hr]
  dsimp only
  rw [if_neg (not_not_intro hall.1), if_neg (not_not_intro hall.2.1)]
  obtain ⟨es, hes, hval⟩ := convertPages_allOk cfg eng hall (List.range eng.pages) _
  refine ⟨es, hes, ?_, ?_⟩
  · rw [hval]
    simp [emitE, List.map_map, Function.comp]
  · rw [hval]
    simp [emitE]

/-- C4, witness: a three-page all-successful conversion with default
parameters yields a 200 archive whose entries are 0000.jpg, 0001.jpg,
0002.jpg in order. -/
theorem c4_archive_structure_witness :
    ∃ es, (convertHandler pfNone puNone queryDefault (some []) engAll3).1 =
        ⟨200, ResponseBody.archive es⟩ ∧
      es.map Prod.fst = (List.range engAll3.pages).map (fun i => entryName i cfgDefault.format) ∧
      es.length = engAll3.pages :=
  c4_archive_structure pfNone puNone queryDefault engAll3 cfgDefault [] rfl
    ⟨rfl, rfl, fun _ => rfl, fun _ => rfl, fun _ => rfl, fun _ => rfl,
     fun _ => rfl, fun _ => rfl, rfl⟩

lemma convertPages_structEq (cfg : ConversionConfig) (e1 e2 : EngineBehavior)
    (h : structEq e1 e2) (l : List Nat) :
    ∀ s1 s2 : LoopState, s1.entries.map Prod.fst = s2.entries.map Prod.fst →
      (convertPages cfg e1 l s1).1.status = (convertPages cfg e2 l s2).1.status ∧
      namesOf (convertPages cfg e1 l s1).1 = namesOf (convertPages cfg e2 l s2).1 := by
  obtain ⟨hres, hread, hpages, hdims, hq, hf, hrot, hblob, hcr, hwr, hc⟩ := h
  induction l with
  | nil =>
    intro s1 s2 hent
    simp only [convertPages]
    rw [← hc]
    by_cases hcl : e1.zipCloseOk = true
    · rw [if_pos hcl, if_pos hcl]
      exact ⟨rfl, by simp [namesOf, hent]⟩
    · rw [if_neg hcl, if_neg hcl]
      exact ⟨rfl, rfl⟩
  | cons i rest ih =>
    intro s1 s2 hent
    simp only [convertPages]
    rw [← hq, ← hf, ← hrot, ← hdims, ← hcr, ← hwr]
    by_cases h1 : e1.setQualityOk i = true
    case neg =>
      rw [if_pos h1, if_pos h1]
      exact ⟨rfl, rfl⟩
    rw [if_neg (not_not_intro h1), if_neg (not_not_intro h1)]
    by_cases h2 : e1.setFormatOk i = true
    case neg =>
      rw [if_pos h2, if_pos h2]
      exact ⟨rfl, rfl⟩
    rw [if_neg (not_not_intro h2), if_neg (not_not_intro h2)]
    by_cases h3 : pageRotated cfg.layout (e1.pageDims i).1 (e1.pageDims i).2 = true ∧
        ¬ e1.rotateOk i = true
    case pos =>
      rw [if_pos h3, if_pos h3]
      exact ⟨rfl, rfl⟩
    rw [if_neg h3, if_neg h3]
    cases hb1 : e1.blob i with
    | none =>
      have hb2 : e2.blob i = none := by
        have := hblob i
        rw [hb1] at this
        exact Option.not_isSome_iff_eq_none.mp (by simp [← this])
      rw [hb2]
      dsimp only
      exact ⟨rfl, rfl⟩
    | some o1 =>
      have hb2 : ∃ o2, e2.blob i = some o2 := by
        have := hblob i
        rw [hb1] at this
        exact Option.isSome_iff_exists.mp this.symm
      obtain ⟨o2, hb2⟩ := hb2
      rw [hb2]
      dsimp only
      by_cases h5 : e1.zipCreateOk i = true
      case neg =>
        rw [if_pos h5, if_pos h5]
        exact ⟨rfl, rfl⟩
      rw [if_neg (not_not_intro h5), if_neg (not_not_intro h5)]
      by_cases h6 : e1.zipWriteOk i = true
      case neg =>
        rw [if_pos h6, if_pos h6]
        exact ⟨rfl, rfl⟩
      rw [if_neg (not_not_intro h6), if_neg (not_not_intro h6)]
      refine ih (sNext s1 i cfg.format o1) (sNext s2 i cfg.format o2) ?_
      rw [sNext_entries, sNext_entries]
      simp [hent]

/-- C8: the archive structure is a deterministic function of the input
bytes and configuration: two runs of the handler on identical query,
body and parser behaviour, against engine runs that agree structurally
(same success pattern, page count and dimensions, even if the encoded
bytes of each page differ), produce responses with the same status and
the same archive entry names. -/
theorem c8_structural_determinism (pf : String → Option Rat) (pu : String → Option Nat)
    (q : Query) (body : Option (List Nat)) (e1 e2 : EngineBehavior)
    (h : structEq e1 e2) :
    (convertHandler pf pu q body e1).1.status = (convertHandler pf pu q body e2).1.status ∧
    namesOf (convertHandler pf pu q body e1).1 = namesOf (convertHandler pf pu q body e2).1 := by
  unfold convertHandler
  cases hr : resolveParams pf pu q with
  | error m => exact ⟨rfl, rfl⟩
  | ok cfg =>
    cases body with
    | none => exact ⟨rfl, rfl⟩
    | some bs =>
      dsimp only
      obtain ⟨hres, hread, hpages, hdims, hq, hf, hrot, hblob, hcr, hwr, hc⟩ := h
      rw [← hres, ← hread, ← hpages]
      by_cases h1 : e1.setResolutionOk = true
      case neg =>
        rw [if_pos h1, if_pos h1]
        exact ⟨rfl, rfl⟩
      rw [if_neg (not_not_intro h1), if_neg (not_not_intro h1)]
      by_cases h2 : e1.readImageOk = true
      case neg =>
        rw [if_pos h2, if_pos h2]
        exact ⟨rfl, rfl⟩
      rw [if_neg (not_not_intro h2), if_neg (not_not_intro h2)]
      exact convertPages_structEq cfg e1 e2
        ⟨hres, hread, hpages, hdims, hq, hf, hrot, hblob, hcr, hwr, hc⟩
        (List.range e1.pages) _ _ rfl

/-- C8, witness: a run against itself trivially satisfies structural
agreement and yields identical status and entry names. -/
theorem c8_structural_determinism_witness :
    (convertHandler pfNone puNone queryDefault (some []) engAll3).1.status =
      (convertHandler pfNone puNone queryDefault (some []) engAll3).1.status ∧
    namesOf (convertHandler pfNone puNone queryDefault (some []) engAll3).1 =
      namesOf (convertHandler pfNone puNone queryDefault (some []) engAll3).1 :=
  c8_structural_determinism pfNone puNone queryDefault (some []) engAll3 engAll3
    ⟨rfl, rfl, rfl, rfl, rfl, rfl, rfl, fun _ => rfl, rfl, rfl, rfl⟩

lemma convertPages_append_ok (cfg : ConversionConfig) (eng : EngineBehavior)
    (l2 : List Nat) : ∀ l1 : List Nat, (∀ i ∈ l1, pageSucceeds cfg eng i) →
    ∀ s : LoopState, ∃ s' : LoopState,
      convertPages cfg eng (l1 ++ l2) s = convertPages cfg eng l2 s' := by
  intro l1
  induction l1 with
  | nil => exact fun _ s => ⟨s, rfl⟩
  | cons i t ih =>
    intro hsucc s
    obtain ⟨hq1, hf1, hr1, hb1, hc1, hw1⟩ := hsucc i (List.mem_cons_self i t)
    rw [List.cons_append]
    simp only [convertPages]
    rw [if_neg (not_not_intro hq1), if_neg (not_not_intro hf1), if_neg hr1]
    obtain ⟨out, hout⟩ := Option.isSome_iff_exists.mp hb1
    rw [hout]
    dsimp only
    rw [if_neg (not_not_intro hc1), if_neg (not_not_intro hw1)]
    exact ih (fun j hj => hsucc j (List.mem_cons_of_mem i hj)) (sNext s i cfg.format out)

lemma convertPages_head_blob_fail (cfg : ConversionConfig) (eng : EngineBehavior)
    (k : Nat) (l2 : List Nat) (s : LoopState)
    (hq : eng.setQualityOk k = true) (hf : eng.setFormatOk k = true)
    (hr : ¬ (pageRotated cfg.layout (eng.pageDims k).1 (eng.pageDims k).2 = true ∧
      ¬ eng.rotateOk k = true))
    (hb : eng.blob k = none) :
    (convertPages cfg eng (k :: l2) s).1 =
      ⟨500, ResponseBody.errorJson "failed to set output format"⟩ := by
  simp only [convertPages]
  rw [if_neg (not_not_intro hq), if_neg (not_not_intro hf), if_neg hr, hb]
  rfl

lemma convertPages_head_format_fail (cfg : ConversionConfig) (eng : EngineBehavior)
    (k : Nat) (l2 : List Nat) (s : LoopState)
    (hq : eng.setQualityOk k = true) (hf : eng.setFormatOk k = false) :
    (convertPages cfg eng (k :: l2) s).1 =
      ⟨500, ResponseBody.errorJson "failed to set output format"⟩ := by
  simp only [convertPages]
  rw [if_neg (not_not_intro hq), if_pos (by simp [hf])]
  rfl

lemma range_split_at (k n : Nat) (h : k < n) :
    ∃ l2, List.range n = List.range k ++ k :: l2 := by
  obtain ⟨m, hm⟩ : ∃ m, n = k + (m + 1) := ⟨n - (k + 1), by omega⟩
  refine ⟨((List.range m).map Nat.succ).map (k + ·), ?_⟩
  rw [hm, List.range_add, List.range_succ_eq_map]
  simp

/-- C10: in every request in which serializing a page to an output byte
blob fails — the failing page k being any page the loop reaches, i.e.
all earlier pages complete and page k passes its quality, format and
layout steps before GetImageBlob returns an error — the response is 500
with JSON error "failed to set output format", the very message
rendered when SetImageFormat itself fails on any reached page (main.go
line 368 reuses the message of line 321), so a client cannot tell the
two failures apart from the response body. -/
theorem c10_blob_failure_message :
    (∀ (pf : String → Option Rat) (pu : String → Option Nat) (q : Query) (bs : List Nat)
      (eng : EngineBehavior) (cfg : ConversionConfig) (k : Nat),
      resolveParams pf pu q = Except.ok cfg →
      eng.setResolutionOk = true → eng.readImageOk = true → k < eng.pages →
      (∀ j, j < k → pageSucceeds cfg eng j) →
      eng.setQualityOk k = true → eng.setFormatOk k = true →
      ¬ (pageRotated cfg.layout (eng.pageDims k).1 (eng.pageDims k).2 = true ∧
        ¬ eng.rotateOk k = true) →
      eng.blob k = none →
      (convertHandler pf pu q (some bs) eng).1 =
        ⟨500, ResponseBody.errorJson "failed to set output format"⟩) ∧
    (∀ (pf : String → Option Rat) (pu : String → Option Nat) (q : Query) (bs : List Nat)
      (eng : EngineBehavior) (cfg : ConversionConfig) (k : Nat),
      resolveParams pf pu q = Except.ok cfg →
      eng.setResolutionOk = true → eng.readImageOk = true → k < eng.pages →
      (∀ j, j < k → pageSucceeds cfg eng j) →
      eng.setQualityOk k = true → eng.setFormatOk k = false →
      (convertHandler pf pu q (some bs) eng).1 =
        ⟨500, ResponseBody.errorJson "failed to set output format"⟩) := by
  constructor
  · intro pf pu q bs eng cfg k hr hres hread hk hprev hqk hfk hrk hbk
    unfold convertHandler
    rw [hr]
    dsimp only
    rw [if_neg (not_not_intro hres), if_neg (not_not_intro hread)]
    obtain ⟨l2, hsplit⟩ := range_split_at k eng.pages hk
    rw [hsplit]
    obtain ⟨s', hs'⟩ := convertPages_append_ok cfg eng (k :: l2) (List.range k)
      (fun i hi => hprev i (List.mem_range.mp hi))
      (emitE (emitE ⟨[Event.acquire Handle.doc], [Handle.doc], []⟩
        (Event.setResolution cfg.density cfg.density)) (Event.call "ReadImageBlob"))
    rw [hs']
    exact convertPages_head_blob_fail cfg eng k l2 s' hqk hfk hrk hbk
  · intro pf pu q bs eng cfg k hr hres hread hk hprev hqk hfk
    unfold convertHandler
    rw [hr]
    dsimp only
    rw [if_neg (not_not_intro hres), if_neg (not_not_intro hread)]
    obtain ⟨l2, hsplit⟩ := range_split_at k eng.pages hk
    rw [hsplit]
    obtain ⟨s', hs'⟩ := convertPages_append_ok cfg eng (k :: l2) (List.range k)
      (fun i hi => hprev i (List.mem_range.mp hi))
      (emitE (emitE ⟨[Event.acquire Handle.doc], [Handle.doc], []⟩
        (Event.setResolution cfg.density cfg.density)) (Event.call "ReadImageBlob"))
    rw [hs']
    exact convertPages_head_format_fail cfg eng k l2 s' hqk hfk

/-- C10, witness: concrete engines failing at GetImageBlob resp. at
SetImageFormat both render 500 "failed to set output format". -/
theorem c10_blob_failure_message_witness :
    (convertHandler pfNone puNone queryDefault (some []) engBlobFail).1 =
      ⟨500, ResponseBody.errorJson "failed to set output format"⟩ ∧
    (convertHandler pfNone puNone queryDefault (some []) engFormatFail).1 =
      ⟨500, ResponseBody.errorJson "failed to set output format"⟩ :=
  ⟨c10_blob_failure_message.1 pfNone puNone queryDefault [] engBlobFail cfgDefault 0
      rfl rfl rfl (by decide) (fun j hj => absurd hj (Nat.not_lt_zero j))
      rfl rfl (by decide) rfl,
   c10_blob_failure_message.2 pfNone puNone queryDefault [] engFormatFail cfgDefault 0
      rfl rfl rfl (by decide) (fun j hj => absurd hj (Nat.not_lt_zero j))
      rfl rfl⟩
